import Mathlib

/-!
Verification of the LED-strip control sketch (the repository's most advanced
variant, `src/unnamed/part_000`) against its natural-language specification.

The sketch's `float` arithmetic is embedded over `ℚ`; transcendental libm
calls (`exp`, `pow` with non-integer exponent) have no exact counterpart on
`ℚ` and are passed in as explicit function parameters of the update
functions, so every theorem below holds for an arbitrary interpretation of
those calls.  Millisecond wall-clock readings (`millis()`) become explicit
`ℚ` parameters of each update function, mirroring the delta-time design
notes of the spec.
-/

namespace Studio3

/-! ## Configuration constants (part_000, lines 64-90) -/

def PHASE_PERIOD : ℚ := 21
def PHASE_SPEED_SLOW : ℚ := 22/100
def PHASE_SPEED_FAST : ℚ := 32/10
def EVENT_COOLDOWN : ℚ := 18/10
def MAX_WAVES : ℕ := 10
def WAVE_INTERVAL_SLOW : ℚ := 10
def WAVE_INTERVAL_FAST : ℚ := 1
def TRANSITION_TIME_MS : ℚ := 16000
def MAX_PARTICLES : ℕ := 30
def ACCEL_START_U : ℚ := 70/100
def TIDAL_STRIP_1_LEDS : ℚ := 200
def TIDAL_STRIP_2_LEDS : ℚ := 300

/-! ## Arduino / sketch utility functions -/

/-- Arduino's `constrain(amt, low, high)` macro:
`amt < low ? low : (amt > high ? high : amt)`. -/
def constrain (x lo hi : ℚ) : ℚ :=
  if x < lo then lo else if hi < x then hi else x

/-- `lerpFloat` (part_000, lines 307-309): linear interpolation with the
parameter clamped to `[0,1]`. -/
def lerpFloat (a b t : ℚ) : ℚ :=
  a + (b - a) * constrain t 0 1

/-- `smoothstep` (part_000, lines 312-315): cubic ease `y*y*(3-2y)` of the
clamped normalized input. -/
def smoothstep (e0 e1 x : ℚ) : ℚ :=
  let y := constrain ((x - e0) / (e1 - e0)) 0 1
  y * y * (3 - 2 * y)

/-- `getCyclicDistance` (part_000, lines 286-289):
`min(fabs(pos1-pos2), period - fabs(pos1-pos2))`. -/
def getCyclicDistance (pos1 pos2 period : ℚ) : ℚ :=
  min |pos1 - pos2| (period - |pos1 - pos2|)

/-- `mapControlValue` (part_000, lines 322-326): `1.0 + (n/100)*60.0`. -/
def mapControlValue (n : ℚ) : ℚ :=
  1 + (n / 100) * 60

/-! ## Data model -/

/-- `struct Wave` (part_000, lines 151-156). -/
structure Wave where
  phase : ℚ
  speed : ℚ
  nValue : ℚ
  active : Bool
deriving DecidableEq, Repr

/-- `struct ControlState` (part_000, lines 159-179).  The fixed array
`waves[MAX_WAVES]` is embedded as a `List Wave` of the pool's slots (the
theorems that need it carry `waves.length = MAX_WAVES` as a hypothesis);
`waveCount` is a C `int`, hence `ℤ`. -/
structure ControlState where
  targetControlValue : ℚ
  currentControlValue : ℚ
  transitionStartTime : ℚ
  transitionStartValue : ℚ
  isTransitioning : Bool
  waves : List Wave
  waveCount : ℤ
  lastWaveSpawnTime : ℚ
  isPaused : Bool
  lastUpdateTime : ℚ
  eventIntensity : ℚ
  eventPhase : ℚ
  lastEventTime : ℚ
  globalTime : ℚ
deriving DecidableEq, Repr

/-- `struct Particle` (part_000, lines 210-214). -/
structure Particle where
  x : ℚ
  energy : ℚ
  hueShift : ℚ
deriving DecidableEq, Repr

/-- `struct TidalStripState` (part_000, lines 217-231).  The fixed array
`particles[30]` plus `particleCount` is embedded as the list of the live
particles (entries `0 .. particleCount-1`); its length plays the role of
`particleCount`. -/
structure TidalStripState where
  controlValue : ℚ
  lastUpdateTime : ℚ
  globalTime : ℚ
  particles : List Particle
  lastParticleSpawnTime : ℚ
  flashIntensity : ℚ
  flashStartTime : ℚ
  lastFlashCheckTime : ℚ
deriving DecidableEq, Repr

/-- The sketch's three global state objects (`state`, `tidal_strip1_state`,
`tidal_strip2_state`) gathered for the whole-loop theorems. -/
structure SystemState where
  control : ControlState
  tidal1 : TidalStripState
  tidal2 : TidalStripState
deriving DecidableEq, Repr

/-! ## Basic bounds for the utility functions -/

theorem constrain_le {lo hi : ℚ} (x : ℚ) (h : lo ≤ hi) : constrain x lo hi ≤ hi := by
  unfold constrain; split_ifs <;> linarith

theorem le_constrain {lo hi : ℚ} (x : ℚ) (h : lo ≤ hi) : lo ≤ constrain x lo hi := by
  unfold constrain; split_ifs <;> linarith

theorem constrain_mono {x y lo hi : ℚ} (hlh : lo ≤ hi) (h : x ≤ y) :
    constrain x lo hi ≤ constrain y lo hi := by
  unfold constrain; split_ifs <;> linarith

theorem constrain_constrain (x lo hi : ℚ) (h : lo ≤ hi) :
    constrain (constrain x lo hi) lo hi = constrain x lo hi := by
  unfold constrain; split_ifs <;> linarith

theorem smoothstep_nonneg (e0 e1 x : ℚ) : 0 ≤ smoothstep e0 e1 x := by
  unfold smoothstep
  have h0 : (0:ℚ) ≤ constrain ((x - e0) / (e1 - e0)) 0 1 := le_constrain _ (by norm_num)
  have h1 : constrain ((x - e0) / (e1 - e0)) 0 1 ≤ 1 := constrain_le _ (by norm_num)
  nlinarith

theorem smoothstep_le_one (e0 e1 x : ℚ) : smoothstep e0 e1 x ≤ 1 := by
  unfold smoothstep
  have h0 : (0:ℚ) ≤ constrain ((x - e0) / (e1 - e0)) 0 1 := le_constrain _ (by norm_num)
  have h1 : constrain ((x - e0) / (e1 - e0)) 0 1 ≤ 1 := constrain_le _ (by norm_num)
  nlinarith [mul_nonneg (sq_nonneg (1 - constrain ((x - e0) / (e1 - e0)) 0 1))
    (by linarith : (0:ℚ) ≤ 1 + 2 * constrain ((x - e0) / (e1 - e0)) 0 1)]

theorem lerpFloat_left_le {a b : ℚ} (t : ℚ) (h : a ≤ b) : a ≤ lerpFloat a b t := by
  unfold lerpFloat
  have h0 : (0:ℚ) ≤ constrain t 0 1 := le_constrain _ (by norm_num)
  nlinarith

theorem lerpFloat_le_right {a b : ℚ} (t : ℚ) (h : a ≤ b) : lerpFloat a b t ≤ b := by
  unfold lerpFloat
  have h0 : (0:ℚ) ≤ constrain t 0 1 := le_constrain _ (by norm_num)
  have h1 : constrain t 0 1 ≤ 1 := constrain_le _ (by norm_num)
  nlinarith

/-! ## Wave engine (part_000, lines 786-863) -/

/-- Number of active waves in the pool (the quantity `waveCount` tracks). -/
def activeCount (ws : List Wave) : ℕ :=
  ws.countP (fun w => w.active)

/-- The wave written by `spawnWave` into a free slot (lines 799-802). -/
def mkWave (speed n : ℚ) : Wave :=
  { phase := 0, speed := speed, nValue := n, active := true }

/-- Speed frozen into a new wave (lines 791-794): smoothstep-eased
interpolation between `PHASE_SPEED_SLOW` and `PHASE_SPEED_FAST`. -/
def spawnSpeed (n : ℚ) : ℚ :=
  lerpFloat PHASE_SPEED_SLOW PHASE_SPEED_FAST (smoothstep 0 1 (constrain (n / 100) 0 1))

/-- The slot-search loop of `spawnWave` (lines 797-815): write the new wave
into the first inactive slot; `none` when every slot is active. -/
def spawnIntoSlots (speed n : ℚ) : List Wave → Option (List Wave)
  | [] => none
  | w :: ws =>
    if w.active then (spawnIntoSlots speed n ws).map (fun ws' => w :: ws')
    else some (mkWave speed n :: ws)

/-- `spawnWave` (part_000, lines 787-816).  Uses `targetControlValue` as the
source value `n` (line 791); a full pool (guard line 788) or no free slot
leaves the state untouched. -/
def spawnWave (s : ControlState) : ControlState :=
  if (MAX_WAVES : ℤ) ≤ s.waveCount then s
  else
    match spawnIntoSlots (spawnSpeed s.targetControlValue) s.targetControlValue s.waves with
    | none => s
    | some ws => { s with waves := ws, waveCount := s.waveCount + 1 }

/-- Delta-time computation shared by the update functions
(lines 822-828, 1193-1194): measured elapsed ms over 1000, replaced by a
nominal 16 ms frame when it exceeds one second. -/
def dtOf (lastUpdateTime now : ℚ) : ℚ :=
  let dt0 := (now - lastUpdateTime) / 1000
  if dt0 > 1 then 16/1000 else dt0

/-- The wave-spawn interval computed in `updateVirtualPosition`
(lines 835, 842): linear interpolation on the clamped normalized control
value (no smoothstep is applied here). -/
def waveIntervalOf (n : ℚ) : ℚ :=
  lerpFloat WAVE_INTERVAL_SLOW WAVE_INTERVAL_FAST (constrain (n / 100) 0 1)

/-- Per-wave advance step (lines 851-861): an active wave moves by its own
frozen speed and retires once its phase reaches `PHASE_PERIOD`. -/
def waveAdvance (dt : ℚ) (w : Wave) : Wave :=
  if w.active then
    let ph := w.phase + w.speed * dt
    if PHASE_PERIOD ≤ ph then { w with phase := ph, active := false }
    else { w with phase := ph }
  else w

/-- Number of waves the advance loop retires this tick (each retirement
decrements `waveCount`, line 859). -/
def retireCount (dt : ℚ) (ws : List Wave) : ℤ :=
  (ws.countP (fun w => w.active && decide (PHASE_PERIOD ≤ w.phase + w.speed * dt)) : ℤ)

/-- The advance loop of `updateVirtualPosition` (lines 850-862). -/
def advanceWaves (s : ControlState) (dt : ℚ) : ControlState :=
  { s with waves := s.waves.map (waveAdvance dt),
           waveCount := s.waveCount - retireCount dt s.waves }

/-- Body of `updateVirtualPosition` past the pause guard (part_000,
lines 822-862): advances `globalTime` by the (clamped) delta, spawns a wave
when `globalTime - lastWaveSpawnTime ≥ waveInterval(targetControlValue)`,
and advances every active wave by its own speed.  (The local `speed`
computed at line 839 is never read afterwards and is omitted.) -/
def updateVirtualPositionActive (s : ControlState) (now : ℚ) : ControlState :=
  let dt := dtOf s.lastUpdateTime now
  let s1 : ControlState := { s with lastUpdateTime := now, globalTime := s.globalTime + dt }
  let s2 := if waveIntervalOf s1.targetControlValue ≤ s1.globalTime - s1.lastWaveSpawnTime
            then { spawnWave s1 with lastWaveSpawnTime := s1.globalTime }
            else s1
  advanceWaves s2 dt

/-- `updateVirtualPosition` (part_000, lines 819-863): no-op while paused
(line 820), otherwise the body above. -/
def updateVirtualPosition (s : ControlState) (now : ℚ) : ControlState :=
  if s.isPaused then s else updateVirtualPositionActive s now

/-! ## Smoothing/transition engine and command handlers
(part_000, lines 660-784) -/

/-- `updateBrightnessTransition` (part_000, lines 768-784). -/
def updateBrightnessTransition (s : ControlState) (now : ℚ) : ControlState :=
  if !s.isTransitioning then s
  else
    let elapsed := now - s.transitionStartTime
    if TRANSITION_TIME_MS ≤ elapsed then
      { s with currentControlValue := s.targetControlValue, isTransitioning := false }
    else
      { s with currentControlValue := s.transitionStartValue +
          (s.targetControlValue - s.transitionStartValue) * (elapsed / TRANSITION_TIME_MS) }

/-- The `f,<n>` branch of `parseCommand` restricted to the group
`ControlState` (part_000, lines 667-708): clamp the target, restart the ramp
from the current value, clear the wave pool, and reset the spawn clock
(fully, with the event state, when the target is 0; otherwise back-dated by
one interval so a wave can spawn at once). -/
def parseCommandF (vRaw now : ℚ) (s : ControlState) : ControlState :=
  let targetValue := constrain vRaw 0 100
  let s1 := { s with transitionStartValue := s.currentControlValue,
                     targetControlValue := targetValue,
                     transitionStartTime := now,
                     isTransitioning := true,
                     lastUpdateTime := now }
  if targetValue = 0 then
    { s1 with eventIntensity := 0, eventPhase := 0, lastEventTime := 0, globalTime := 0,
              waves := s1.waves.map (fun w => { w with active := false }),
              waveCount := 0, lastWaveSpawnTime := 0 }
  else
    { s1 with waves := s1.waves.map (fun w => { w with active := false }),
              waveCount := 0,
              lastWaveSpawnTime := s1.globalTime - waveIntervalOf targetValue }

/-- The `q` branch of `parseCommand` restricted to the group `ControlState`
(part_000, lines 750-760): zero target and current value and clear the
transition flag.  Nothing else of the wave subsystem is touched. -/
def parseCommandQ (s : ControlState) : ControlState :=
  { s with targetControlValue := 0, currentControlValue := 0, isTransitioning := false }

/-- The `q` branch's effect on a tidal strip state (lines 755-756). -/
def parseCommandQTidal (t : TidalStripState) : TidalStripState :=
  { t with controlValue := 0 }

/-! ## Layered compositor pieces used by the claims
(part_000, lines 883-944) -/

/-- `calculateSingleWaveContribution` (part_000, lines 883-927). -/
def calculateSingleWaveContribution (pos wavePhase n : ℚ) : ℚ :=
  let t := constrain (n / 100) 0 1
  let k := smoothstep 0 1 t
  let d := pos - wavePhase
  let absD := |d|
  let width := lerpFloat (15/10) (8/10) k
  let depth := lerpFloat (3/10) (85/100) k
  if width < absD then 0
  else
    let frontWidth := width * (2/10)
    let backWidth := width * (2/10)
    if d < 0 then
      if absD ≤ frontWidth then depth * smoothstep 0 1 (absD / frontWidth)
      else depth
    else
      if absD ≤ backWidth then depth * (1 - smoothstep 0 1 (absD / backWidth))
      else 0

/-- `calculateMainDarkWave` (part_000, lines 930-944): maximum over the
active waves of the single-wave contribution evaluated at the wave's own
frozen `nValue`.  The live control value parameter `n` of the C function is
never read in its body and is kept only to mirror the signature. -/
def calculateMainDarkWave (pos : ℚ) (waves : List Wave) (n : ℚ) : ℚ :=
  waves.foldl
    (fun acc w =>
      if w.active then max acc (calculateSingleWaveContribution pos w.phase w.nValue)
      else acc) 0

/-! ## Particle flow simulator (part_000, lines 359-412) -/

/-- `spawnParticle` (part_000, lines 359-378).  `randomFloat(0.5,1.0)` and
`randomFloat(-10,10)` are the oracle parameters `randEnergy` / `randHue`;
`pow(s, 1.6)` is the oracle `powQ` applied to `(s, 16/10)`.  The new
particle is written at index `particleCount`, i.e. appended to the live
list. -/
def spawnParticle (st : TidalStripState) (randEnergy randHue : ℚ)
    (powQ : ℚ → ℚ → ℚ) : TidalStripState :=
  if MAX_PARTICLES ≤ st.particles.length then st
  else if st.controlValue ≤ 0 then st
  else
    let nMapped := mapControlValue st.controlValue
    let s := nMapped / 100
    let rate := 2/10 + 118/10 * powQ s (16/10)
    let timeSinceLastSpawn := st.globalTime - st.lastParticleSpawnTime
    let spawnInterval := 1 / rate
    if spawnInterval ≤ timeSinceLastSpawn then
      let p : Particle := { x := 0, energy := randEnergy, hueShift := randHue }
      { st with particles := st.particles ++ [p],
                lastParticleSpawnTime := st.globalTime }
    else st

/-- The per-particle position step of `updateParticles`
(part_000, lines 387-401). -/
def advanceParticle (controlValue totalLEDs dt : ℚ) (p : Particle) : Particle :=
  let nMapped := mapControlValue controlValue
  let s := nMapped / 100
  let baseSpeed := lerpFloat 10 260 s
  let u := p.x / (totalLEDs - 1)
  let accelMask := smoothstep ACCEL_START_U 1 u
  let speedMul := 1 + accelMask * lerpFloat 0 (25/10) s
  { p with x := p.x + baseSpeed * speedMul * dt }

/-- `updateParticles` (part_000, lines 381-412): clears the pool when the
control value is non-positive, otherwise advances each live particle once
and removes those whose position reached `totalLEDs`.  The C loop removes by
swap-with-last while iterating downward, so every original particle is
advanced exactly once and the surviving multiset is exactly the advanced
particles still inside the strip; the swap only permutes the live set
(order is irrelevant per the data model), embedded here as map-then-filter. -/
def updateParticles (st : TidalStripState) (totalLEDs dt : ℚ) : TidalStripState :=
  if st.controlValue ≤ 0 then { st with particles := [] }
  else
    let moved := st.particles.map (advanceParticle st.controlValue totalLEDs dt)
    { st with particles := moved.filter (fun p => p.x < totalLEDs) }

/-! ## Flash/transient event generator (part_000, lines 497-523) -/

/-- `updateFlashEffect` (part_000, lines 497-523).  `exp` is the oracle
`expQ`; `randomFloat(0,1)` is the oracle `rand`.  The `deltaTime` parameter
of the C function is never read in its body and is kept only to mirror the
signature. -/
def updateFlashEffect (st : TidalStripState) (deltaTime rand : ℚ)
    (expQ : ℚ → ℚ) : TidalStripState :=
  let nMapped := mapControlValue st.controlValue
  let st1 := if 0 < st.flashIntensity then
      let fi := expQ (-(5 * (st.globalTime - st.flashStartTime)))
      { st with flashIntensity := if fi < 1/100 then 0 else fi }
    else st
  if 85 < nMapped ∧ st1.flashIntensity = 0 then
    if 1 ≤ st1.globalTime - st1.lastFlashCheckTime then
      let p := ((nMapped - 85) / 15) ^ 2 * (6/10)
      let st2 := if rand < p then
          { st1 with flashIntensity := 1, flashStartTime := st1.globalTime }
        else st1
      { st2 with lastFlashCheckTime := st2.globalTime }
    else st1
  else st1

/-! ## Event layer (part_000, lines 997-1022) -/

/-- `updateEventLayer` (part_000, lines 997-1022); `randomFloat(0,1)` is the
oracle `rand`, `now` the `millis()` reading of line 1005. -/
def updateEventLayer (s : ControlState) (dt now rand : ℚ) : ControlState :=
  if s.currentControlValue < 70 then { s with eventIntensity := 0 }
  else if 0 < s.eventIntensity then
    let ph := s.eventPhase + dt * 8
    if PHASE_PERIOD ≤ ph then { s with eventPhase := ph, eventIntensity := 0 }
    else { s with eventPhase := ph }
  else if EVENT_COOLDOWN * 1000 ≤ now - s.lastEventTime then
    let rate := lerpFloat (5/100) (35/100) ((s.currentControlValue - 70) / 30)
    if rand < rate * dt then { s with eventIntensity := 1, eventPhase := 0, lastEventTime := now }
    else s
  else s

/-! ## The main loop's per-frame state updates (part_000, lines 1149-1256)

Rendering writes only to the LED buffers, so the state-relevant portion of
one `loop()` iteration is: the (timer-gated) brightness transition, the wave
update, the (pause-gated) event layer, and the two tidal strips' particle
and flash updates, which are not gated by `isPaused`. -/

/-- One tidal strip's per-frame update (part_000, lines 1190-1214):
time-base advance with the same delta clamp, then `updateParticles`,
`spawnParticle`, `updateFlashEffect`. -/
def tidalTick (st : TidalStripState) (now totalLEDs randEnergy randHue randFlash : ℚ)
    (powQ : ℚ → ℚ → ℚ) (expQ : ℚ → ℚ) : TidalStripState :=
  let st0 := if st.lastUpdateTime = 0 then { st with lastUpdateTime := now } else st
  let dt := dtOf st0.lastUpdateTime now
  let st1 := { st0 with lastUpdateTime := now, globalTime := st0.globalTime + dt }
  let st2 := updateParticles st1 totalLEDs dt
  let st3 := spawnParticle st2 randEnergy randHue powQ
  updateFlashEffect st3 dt randFlash expQ

/-- The state updates of one `loop()` iteration (part_000, lines 1149-1256),
with no pending serial command.  `doTransition` models whether the
`EVERY_N_MILLISECONDS(20)` timer fires this frame; the event layer's delta
(line 1165) reuses `lastUpdateTime`, which `updateVirtualPosition` has just
set to `now` when not paused. -/
def loopTick (sys : SystemState) (now : ℚ) (doTransition : Bool)
    (randEvent rE1 rH1 rF1 rE2 rH2 rF2 : ℚ)
    (powQ : ℚ → ℚ → ℚ) (expQ : ℚ → ℚ) : SystemState :=
  let c0 := if doTransition then updateBrightnessTransition sys.control now else sys.control
  let c1 := updateVirtualPosition c0 now
  let c2 := if c1.isPaused then c1
            else updateEventLayer c1 (dtOf c1.lastUpdateTime now) now randEvent
  { control := c2,
    tidal1 := tidalTick sys.tidal1 now TIDAL_STRIP_1_LEDS rE1 rH1 rF1 powQ expQ,
    tidal2 := tidalTick sys.tidal2 now TIDAL_STRIP_2_LEDS rE2 rH2 rF2 powQ expQ }

/-! ## Input sequences for the flash subsystem -/

/-- One step of an arbitrary input history seen by a strip's flash
subsystem: before its `updateFlashEffect` call the surrounding loop may have
replaced the control value (serial commands) and advanced the global time,
and supplies fresh delta and random draws. -/
structure FlashStep where
  cv : ℚ
  gt : ℚ
  dt : ℚ
  rand : ℚ
deriving DecidableEq, Repr

/-- Run `updateFlashEffect` over an arbitrary input sequence. -/
def flashRun (expQ : ℚ → ℚ) (st : TidalStripState) : List FlashStep → TidalStripState
  | [] => st
  | step :: rest =>
      flashRun expQ
        (updateFlashEffect { st with controlValue := step.cv, globalTime := step.gt }
          step.dt step.rand expQ) rest

/-! ## Claim C4 -/

/-- Claim C4 as frozen asserts for all `a`, `b` and `period > 0` that the
result lies in `[0, period/2]`; the code violates this when `|a-b|` exceeds
the period: `getCyclicDistance 0 30 21` is `min(30, 21-30) = -9 < 0`. -/
theorem cyclic_distance_counterexample_C4 :
    (0:ℚ) < 21 ∧ getCyclicDistance 0 30 21 = -9 ∧ getCyclicDistance 0 30 21 < 0 := by
  refine ⟨by norm_num, ?_, ?_⟩ <;> norm_num [getCyclicDistance, abs, min_def]

/-- Claim C4 (amended): `getCyclicDistance(a,b,period) = min(|a-b|,
period-|a-b|)` is symmetric in `a` and `b` for all inputs; whenever
`0 < period` and `|a-b| ≤ period` (as holds for every periodic-domain use
in the sketch) the result lies in `[0, period/2]`; and whenever
`|a-b| > period` the code returns the negative value `period - |a-b|`. -/
theorem cyclic_distance_C4 (a b period : ℚ) :
    getCyclicDistance a b period = getCyclicDistance b a period ∧
    (0 < period → |a - b| ≤ period →
      0 ≤ getCyclicDistance a b period ∧
      getCyclicDistance a b period ≤ period / 2) ∧
    (period < |a - b| →
      getCyclicDistance a b period = period - |a - b| ∧
      getCyclicDistance a b period < 0) := by
  unfold getCyclicDistance
  refine ⟨by rw [abs_sub_comm], fun hper hd => ⟨?_, ?_⟩, fun hgt => ⟨?_, ?_⟩⟩
  · exact le_min (abs_nonneg _) (by linarith)
  · rcases le_total |a - b| (period / 2) with h | h
    · exact le_trans (min_le_left _ _) h
    · exact le_trans (min_le_right _ _) (by linarith)
  · exact min_eq_right (by have h0 : (0:ℚ) ≤ |a - b| := abs_nonneg _; linarith)
  · have h0 : 0 ≤ |a - b| := abs_nonneg _
    calc min |a - b| (period - |a - b|) ≤ period - |a - b| := min_le_right _ _
      _ < 0 := by linarith

theorem cyclic_distance_C4_witness :
    getCyclicDistance 1 3 21 = getCyclicDistance 3 1 21 ∧
    ((0:ℚ) < 21 ∧ |(1:ℚ) - 3| ≤ 21 ∧
     0 ≤ getCyclicDistance 1 3 21 ∧ getCyclicDistance 1 3 21 ≤ 21 / 2) ∧
    ((21:ℚ) < |(0:ℚ) - 30| ∧ getCyclicDistance 0 30 21 < 0) :=
  ⟨(cyclic_distance_C4 1 3 21).1,
   ⟨by norm_num, by rw [abs_of_nonpos] <;> norm_num,
    (cyclic_distance_C4 1 3 21).2.1 (by norm_num)
      (by rw [abs_of_nonpos] <;> norm_num)⟩,
   ⟨by rw [abs_of_nonpos] <;> norm_num,
    ((cyclic_distance_C4 0 30 21).2.2 (by rw [abs_of_nonpos] <;> norm_num)).2⟩⟩

/-! ## Claim C8 -/

/-- Claim C8: the wave spawn interval is monotonically non-increasing in the
control value on `[0,100]`. -/
theorem wave_interval_monotone_C8 (n1 n2 : ℚ) (h0 : 0 ≤ n1) (h12 : n1 ≤ n2)
    (h100 : n2 ≤ 100) : waveIntervalOf n2 ≤ waveIntervalOf n1 := by
  have hm : constrain (n1 / 100) 0 1 ≤ constrain (n2 / 100) 0 1 :=
    constrain_mono (by norm_num) (by linarith)
  have hm2 : constrain (constrain (n1 / 100) 0 1) 0 1 ≤
      constrain (constrain (n2 / 100) 0 1) 0 1 :=
    constrain_mono (by norm_num) hm
  unfold waveIntervalOf lerpFloat WAVE_INTERVAL_SLOW WAVE_INTERVAL_FAST
  linarith

theorem wave_interval_monotone_C8_witness :
    (0:ℚ) ≤ 0 ∧ (0:ℚ) ≤ 100 ∧ (100:ℚ) ≤ 100 ∧ waveIntervalOf 100 ≤ waveIntervalOf 0 :=
  ⟨le_refl 0, by norm_num, le_refl 100,
   wave_interval_monotone_C8 0 100 (le_refl 0) (by norm_num) (le_refl 100)⟩

/-! ## Claim C3 -/

/-- Modelled from the spec's words for claim C3 (refinement comparison
only): the spawn interval as the claim states it, interpolating between the
slow and fast intervals through the smoothed cubic-ease mapping `3x²-2x³` of
the normalized control value. -/
def waveIntervalSpecC3 (n : ℚ) : ℚ :=
  lerpFloat WAVE_INTERVAL_SLOW WAVE_INTERVAL_FAST (smoothstep 0 1 (constrain (n / 100) 0 1))

/-- Claim C3 counterexample: at control value 25 the code's interval
(line 842 uses the plain clamped `t = n/100`) is `7.75 s`, while the claimed
cubic-ease interpolation gives `275/32 = 8.59375 s`. -/
theorem wave_interval_cubic_counterexample_C3 :
    waveIntervalOf 25 = 31/4 ∧ waveIntervalSpecC3 25 = 275/32 ∧
    waveIntervalOf 25 ≠ waveIntervalSpecC3 25 := by
  refine ⟨?_, ?_, ?_⟩ <;>
    norm_num [waveIntervalOf, waveIntervalSpecC3, lerpFloat, smoothstep, constrain,
      WAVE_INTERVAL_SLOW, WAVE_INTERVAL_FAST]

/-- Claim C3 (amended): the spawn interval linearly interpolates between the
slow interval (10 s at n=0) and the fast interval (1 s at n=100) using the
clamped normalized control value directly — the cubic-ease `3x²-2x³` mapping
is applied only to the wave speed, not to the interval — and on a non-paused
tick `updateVirtualPosition` attempts a spawn (resetting the spawn clock)
exactly when `globalTime - lastWaveSpawnTime ≥ waveInterval(target)` for the
freshly advanced global time. -/
theorem wave_interval_linear_C3 (s : ControlState) (now : ℚ)
    (hp : s.isPaused = false) :
    (∀ n : ℚ, waveIntervalOf n =
        WAVE_INTERVAL_SLOW + (WAVE_INTERVAL_FAST - WAVE_INTERVAL_SLOW) *
          constrain (n / 100) 0 1) ∧
    (waveIntervalOf s.targetControlValue ≤
        s.globalTime + dtOf s.lastUpdateTime now - s.lastWaveSpawnTime →
      updateVirtualPosition s now =
        advanceWaves
          { spawnWave { s with lastUpdateTime := now,
                               globalTime := s.globalTime + dtOf s.lastUpdateTime now } with
            lastWaveSpawnTime := s.globalTime + dtOf s.lastUpdateTime now }
          (dtOf s.lastUpdateTime now)) ∧
    (s.globalTime + dtOf s.lastUpdateTime now - s.lastWaveSpawnTime <
        waveIntervalOf s.targetControlValue →
      updateVirtualPosition s now =
        advanceWaves
          { s with lastUpdateTime := now,
                   globalTime := s.globalTime + dtOf s.lastUpdateTime now }
          (dtOf s.lastUpdateTime now)) := by
  refine ⟨?_, ?_, ?_⟩
  · intro n
    unfold waveIntervalOf lerpFloat
    rw [constrain_constrain _ _ _ (by norm_num)]
  · intro h
    simp only [updateVirtualPosition, updateVirtualPositionActive, hp,
      Bool.false_eq_true, if_false]
    rw [if_pos h]
  · intro h
    simp only [updateVirtualPosition, updateVirtualPositionActive, hp,
      Bool.false_eq_true, if_false]
    rw [if_neg (not_le.mpr h)]

/-- Concrete non-paused state exercising the spawn branch for the C3
witness. -/
def stateC3 : ControlState :=
  { targetControlValue := 50, currentControlValue := 50, transitionStartTime := 0,
    transitionStartValue := 50, isTransitioning := false, waves := [],
    waveCount := 0, lastWaveSpawnTime := 0, isPaused := false, lastUpdateTime := 0,
    eventIntensity := 0, eventPhase := 0, lastEventTime := 0, globalTime := 100 }

theorem wave_interval_linear_C3_witness :
    stateC3.isPaused = false ∧
    waveIntervalOf stateC3.targetControlValue ≤
      stateC3.globalTime + dtOf stateC3.lastUpdateTime 500 - stateC3.lastWaveSpawnTime ∧
    updateVirtualPosition stateC3 500 =
      advanceWaves
        { spawnWave { stateC3 with lastUpdateTime := 500,
                                   globalTime := stateC3.globalTime + dtOf stateC3.lastUpdateTime 500 } with
          lastWaveSpawnTime := stateC3.globalTime + dtOf stateC3.lastUpdateTime 500 }
        (dtOf stateC3.lastUpdateTime 500) :=
  ⟨rfl,
   by norm_num [stateC3, waveIntervalOf, lerpFloat, constrain, dtOf,
     WAVE_INTERVAL_SLOW, WAVE_INTERVAL_FAST],
   (wave_interval_linear_C3 stateC3 500 rfl).2.1
     (by norm_num [stateC3, waveIntervalOf, lerpFloat, constrain, dtOf,
       WAVE_INTERVAL_SLOW, WAVE_INTERVAL_FAST])⟩

/-! ## Claim C2 -/

/-- Claim C2: setting a new target begins a linear ramp of
`currentControlValue` from the value current at request time; while
`elapsed < 16000 ms` each update sets
`current = start + (target - start) * elapsed/duration`, and once
`elapsed ≥ 16000 ms` the value snaps to the target exactly and the
transitioning flag is cleared; in particular `f,100` at `t = 0` yields
exactly 100 at `t = 16 s`. -/
theorem transition_ramp_C2 (s : ControlState) (now : ℚ)
    (ht : s.isTransitioning = true) (hnow : s.transitionStartTime ≤ now) :
    ((TRANSITION_TIME_MS ≤ now - s.transitionStartTime →
        (updateBrightnessTransition s now).currentControlValue = s.targetControlValue ∧
        (updateBrightnessTransition s now).isTransitioning = false) ∧
     (now - s.transitionStartTime < TRANSITION_TIME_MS →
        (updateBrightnessTransition s now).currentControlValue =
          s.transitionStartValue + (s.targetControlValue - s.transitionStartValue) *
            ((now - s.transitionStartTime) / TRANSITION_TIME_MS))) ∧
    (∀ v now2 : ℚ,
        (parseCommandF v now2 s).transitionStartValue = s.currentControlValue ∧
        (parseCommandF v now2 s).targetControlValue = constrain v 0 100 ∧
        (parseCommandF v now2 s).transitionStartTime = now2 ∧
        (parseCommandF v now2 s).isTransitioning = true) ∧
    ((updateBrightnessTransition (parseCommandF 100 0 s) 16000).currentControlValue = 100 ∧
     (updateBrightnessTransition (parseCommandF 100 0 s) 16000).isTransitioning = false) := by
  refine ⟨⟨?_, ?_⟩, ?_, ?_, ?_⟩
  · intro h
    simp only [updateBrightnessTransition, ht, Bool.not_true, Bool.false_eq_true, if_false]
    rw [if_pos h]
    exact ⟨rfl, rfl⟩
  · intro h
    simp only [updateBrightnessTransition, ht, Bool.not_true, Bool.false_eq_true, if_false]
    rw [if_neg (not_le.mpr h)]
  · intro v now2
    simp only [parseCommandF]
    split_ifs <;> exact ⟨rfl, rfl, rfl, rfl⟩
  · simp only [parseCommandF, updateBrightnessTransition]
    norm_num [constrain, TRANSITION_TIME_MS]
  · simp only [parseCommandF, updateBrightnessTransition]
    norm_num [constrain, TRANSITION_TIME_MS]

/-- Concrete mid-ramp state for the C2 witness: start value 20 toward
target 80, ramp started at t = 1000 ms, queried at t = 5000 ms. -/
def stateC2 : ControlState :=
  { targetControlValue := 80, currentControlValue := 30, transitionStartTime := 1000,
    transitionStartValue := 20, isTransitioning := true, waves := [],
    waveCount := 0, lastWaveSpawnTime := 0, isPaused := false, lastUpdateTime := 0,
    eventIntensity := 0, eventPhase := 0, lastEventTime := 0, globalTime := 0 }

theorem transition_ramp_C2_witness :
    stateC2.isTransitioning = true ∧ stateC2.transitionStartTime ≤ 5000 ∧
    (5000 - stateC2.transitionStartTime < TRANSITION_TIME_MS ∧
     (updateBrightnessTransition stateC2 5000).currentControlValue =
       stateC2.transitionStartValue +
         (stateC2.targetControlValue - stateC2.transitionStartValue) *
           ((5000 - stateC2.transitionStartTime) / TRANSITION_TIME_MS)) :=
  ⟨rfl, by norm_num [stateC2], by norm_num [stateC2, TRANSITION_TIME_MS],
   (transition_ramp_C2 stateC2 5000 rfl (by norm_num [stateC2])).1.2
     (by norm_num [stateC2, TRANSITION_TIME_MS])⟩

/-! ## Claim C10 -/

/-- One flash update keeps a zero intensity at zero whenever the control
value is within the command-clamped range (its internal remapping stays
below the trigger threshold 85). -/
theorem updateFlashEffect_zero (st : TidalStripState) (dt rand : ℚ)
    (expQ : ℚ → ℚ) (hcv : st.controlValue ≤ 100) (h0 : st.flashIntensity = 0) :
    (updateFlashEffect st dt rand expQ).flashIntensity = 0 := by
  have hm : mapControlValue st.controlValue ≤ 61 := by
    unfold mapControlValue; linarith
  unfold updateFlashEffect
  rw [h0]
  rw [if_neg (by norm_num : ¬(0:ℚ) < 0)]
  rw [if_neg (by rintro ⟨h85, -⟩; linarith)]
  exact h0

/-- Claim C10: the internal remapping of any command-clamped control value
lies in `[1,61]`, strictly below the flash trigger threshold 85, so starting
from `flashIntensity = 0` the flash effect never triggers: a single update
leaves it at 0, and so does any input sequence of control values in
`[0,100]`, global times, deltas and random draws. -/
theorem flash_never_triggers_C10 :
    (∀ n : ℚ, 0 ≤ n → n ≤ 100 →
        1 ≤ mapControlValue n ∧ mapControlValue n ≤ 61 ∧ mapControlValue n < 85) ∧
    (∀ (st : TidalStripState) (dt rand : ℚ) (expQ : ℚ → ℚ),
        0 ≤ st.controlValue → st.controlValue ≤ 100 → st.flashIntensity = 0 →
        (updateFlashEffect st dt rand expQ).flashIntensity = 0) ∧
    (∀ (expQ : ℚ → ℚ) (steps : List FlashStep) (st : TidalStripState),
        st.flashIntensity = 0 →
        (∀ step ∈ steps, 0 ≤ step.cv ∧ step.cv ≤ 100) →
        (flashRun expQ st steps).flashIntensity = 0) := by
  refine ⟨?_, ?_, ?_⟩
  · intro n h0 h100
    unfold mapControlValue
    refine ⟨by nlinarith, by nlinarith, by nlinarith⟩
  · intro st dt rand expQ _ hcv h0
    exact updateFlashEffect_zero st dt rand expQ hcv h0
  · intro expQ steps
    induction steps with
    | nil => intro st h0 _; exact h0
    | cons step rest ih =>
      intro st h0 hsteps
      simp only [flashRun]
      exact ih _ (updateFlashEffect_zero _ _ _ _ (hsteps step (by simp)).2 h0)
        (fun st' hst' => hsteps st' (by simp [hst']))

/-- Concrete strip state and input sequence for the C10 witness. -/
def stateC10 : TidalStripState :=
  { controlValue := 100, lastUpdateTime := 0, globalTime := 50, particles := [],
    lastParticleSpawnTime := 0, flashIntensity := 0, flashStartTime := 0,
    lastFlashCheckTime := 0 }

def stepsC10 : List FlashStep :=
  [{ cv := 100, gt := 60, dt := 1/10, rand := 0 },
   { cv := 30, gt := 61, dt := 1/10, rand := 0 }]

theorem flash_never_triggers_C10_witness :
    ((0:ℚ) ≤ 100 ∧ (100:ℚ) ≤ 100 ∧ mapControlValue 100 < 85) ∧
    (stateC10.flashIntensity = 0 ∧
     (flashRun (fun x => x) stateC10 stepsC10).flashIntensity = 0) :=
  ⟨⟨by norm_num, le_refl 100,
    (flash_never_triggers_C10.1 100 (by norm_num) (le_refl 100)).2.2⟩,
   rfl,
   flash_never_triggers_C10.2.2 (fun x => x) stepsC10 stateC10 rfl
     (by intro step hstep
         simp only [stepsC10, List.mem_cons, List.mem_singleton] at hstep
         rcases hstep with h | h | h
         · rw [h]; constructor <;> norm_num
         · rw [h]; constructor <;> norm_num
         · cases h)⟩

/-! ## Claim C7 -/

/-- A particle's position never decreases under one advance step with
non-negative delta time: the base speed is at least 10 LEDs/s and the
acceleration multiplier is at least 1. -/
theorem advanceParticle_mono (cv totalLEDs dt : ℚ) (hdt : 0 ≤ dt)
    (p : Particle) : p.x ≤ (advanceParticle cv totalLEDs dt p).x := by
  simp only [advanceParticle]
  have hb : (10:ℚ) ≤ lerpFloat 10 260 (mapControlValue cv / 100) :=
    lerpFloat_left_le _ (by norm_num)
  have hm0 : 0 ≤ smoothstep ACCEL_START_U 1 (p.x / (totalLEDs - 1)) :=
    smoothstep_nonneg _ _ _
  have hl0 : (0:ℚ) ≤ lerpFloat 0 (25/10) (mapControlValue cv / 100) :=
    lerpFloat_left_le _ (by norm_num)
  have hmul : 0 ≤ smoothstep ACCEL_START_U 1 (p.x / (totalLEDs - 1)) *
      lerpFloat 0 (25/10) (mapControlValue cv / 100) := mul_nonneg hm0 hl0
  have hprod : 0 ≤ lerpFloat 10 260 (mapControlValue cv / 100) *
      (1 + smoothstep ACCEL_START_U 1 (p.x / (totalLEDs - 1)) *
        lerpFloat 0 (25/10) (mapControlValue cv / 100)) * dt :=
    mul_nonneg (mul_nonneg (by linarith) (by linarith)) hdt
  linarith

/-- Claim C7: after a spawn or an update step the particle count stays at
most `MAX_PARTICLES` (30), every advance with non-negative delta time is
position-non-decreasing, and every particle surviving an update is the
advance of an original particle, at a position no smaller than before. -/
theorem particle_invariants_C7 (st : TidalStripState) (totalLEDs dt rE rH : ℚ)
    (powQ : ℚ → ℚ → ℚ)
    (hlen : st.particles.length ≤ MAX_PARTICLES) (hdt : 0 ≤ dt) :
    (spawnParticle st rE rH powQ).particles.length ≤ MAX_PARTICLES ∧
    (updateParticles st totalLEDs dt).particles.length ≤ MAX_PARTICLES ∧
    (∀ p : Particle, p.x ≤ (advanceParticle st.controlValue totalLEDs dt p).x) ∧
    (∀ p' ∈ (updateParticles st totalLEDs dt).particles,
        ∃ p ∈ st.particles,
          p' = advanceParticle st.controlValue totalLEDs dt p ∧ p.x ≤ p'.x) := by
  refine ⟨?_, ?_, fun p => advanceParticle_mono _ _ _ hdt p, ?_⟩
  · simp only [spawnParticle]
    split_ifs with h1 h2 h3
    · exact hlen
    · exact hlen
    · simp only [List.length_append, List.length_cons, List.length_nil]
      omega
    · exact hlen
  · unfold updateParticles
    split_ifs with h1
    · simp [MAX_PARTICLES]
    · simp only
      calc (List.filter _ _).length
          ≤ (st.particles.map (advanceParticle st.controlValue totalLEDs dt)).length :=
            List.length_filter_le _ _
        _ = st.particles.length := List.length_map _ _
        _ ≤ MAX_PARTICLES := hlen
  · intro p' hp'
    unfold updateParticles at hp'
    split_ifs at hp' with h1
    · simp at hp'
    · simp only [List.mem_filter] at hp'
      obtain ⟨hmem, -⟩ := hp'
      obtain ⟨p, hp, rfl⟩ := List.mem_map.mp hmem
      exact ⟨p, hp, rfl, advanceParticle_mono _ _ _ hdt p⟩

/-- Concrete strip state for the C7 witness: one live particle. -/
def stateC7 : TidalStripState :=
  { controlValue := 50, lastUpdateTime := 0, globalTime := 5, particles := [⟨5, 3/4, 0⟩],
    lastParticleSpawnTime := 0, flashIntensity := 0, flashStartTime := 0,
    lastFlashCheckTime := 0 }

theorem particle_invariants_C7_witness :
    stateC7.particles.length ≤ MAX_PARTICLES ∧ (0:ℚ) ≤ 1/10 ∧
    (spawnParticle stateC7 1 0 (fun x y => x * y)).particles.length ≤ MAX_PARTICLES ∧
    (updateParticles stateC7 200 (1/10)).particles.length ≤ MAX_PARTICLES :=
  ⟨by simp [stateC7, MAX_PARTICLES], by norm_num,
   (particle_invariants_C7 stateC7 200 (1/10) 1 0 (fun x y => x * y)
     (by simp [stateC7, MAX_PARTICLES]) (by norm_num)).1,
   (particle_invariants_C7 stateC7 200 (1/10) 1 0 (fun x y => x * y)
     (by simp [stateC7, MAX_PARTICLES]) (by norm_num)).2.1⟩

/-! ## Wave pool lemmas -/

theorem spawnIntoSlots_eq_none {sp n : ℚ} :
    ∀ {ws : List Wave}, spawnIntoSlots sp n ws = none → activeCount ws = ws.length
  | [], _ => rfl
  | w :: ws, h => by
    simp only [spawnIntoSlots] at h
    split_ifs at h with hw
    · have hrec : spawnIntoSlots sp n ws = none := by
        rcases heq : spawnIntoSlots sp n ws with _ | ws'
        · rfl
        · rw [heq] at h; simp at h
      have ih := spawnIntoSlots_eq_none hrec
      simp only [activeCount] at ih
      simp only [activeCount, List.countP_cons, hw, if_true, List.length_cons]
      omega

theorem spawnIntoSlots_length {sp n : ℚ} :
    ∀ {ws ws' : List Wave}, spawnIntoSlots sp n ws = some ws' → ws'.length = ws.length
  | [], _, h => by simp [spawnIntoSlots] at h
  | w :: ws, ws', h => by
    simp only [spawnIntoSlots] at h
    split_ifs at h with hw
    · rcases heq : spawnIntoSlots sp n ws with _ | ws0
      · rw [heq] at h; simp at h
      · rw [heq] at h
        simp only [Option.map_some', Option.some.injEq] at h
        subst h
        simp [spawnIntoSlots_length heq]
    · simp only [Option.some.injEq] at h
      subst h
      simp
  termination_by ws => ws.length

theorem spawnIntoSlots_activeCount {sp n : ℚ} :
    ∀ {ws ws' : List Wave}, spawnIntoSlots sp n ws = some ws' →
      activeCount ws' = activeCount ws + 1
  | [], _, h => by simp [spawnIntoSlots] at h
  | w :: ws, ws', h => by
    simp only [spawnIntoSlots] at h
    split_ifs at h with hw
    · rcases heq : spawnIntoSlots sp n ws with _ | ws0
      · rw [heq] at h; simp at h
      · rw [heq] at h
        simp only [Option.map_some', Option.some.injEq] at h
        subst h
        have ih := spawnIntoSlots_activeCount heq
        simp [activeCount, List.countP_cons, hw] at ih ⊢
        omega
    · simp only [Option.some.injEq] at h
      subst h
      simp [activeCount, List.countP_cons, hw, mkWave]
  termination_by ws => ws.length

theorem spawnIntoSlots_get_active {sp n : ℚ} :
    ∀ {ws ws' : List Wave} {i : ℕ} {w : Wave},
      spawnIntoSlots sp n ws = some ws' → ws[i]? = some w → w.active = true →
      ws'[i]? = some w
  | [], _, i, w, h, _, _ => by simp [spawnIntoSlots] at h
  | w0 :: ws, ws', i, w, h, hw, ha => by
    simp only [spawnIntoSlots] at h
    split_ifs at h with hact
    · rcases heq : spawnIntoSlots sp n ws with _ | ws0
      · rw [heq] at h; simp at h
      · rw [heq] at h
        simp only [Option.map_some', Option.some.injEq] at h
        subst h
        match i with
        | 0 => simpa using hw
        | i + 1 =>
          simp only [List.getElem?_cons_succ] at hw ⊢
          exact spawnIntoSlots_get_active heq hw ha
    · simp only [Option.some.injEq] at h
      subst h
      match i with
      | 0 =>
        simp only [List.getElem?_cons_zero, Option.some.injEq] at hw
        rw [hw] at hact
        exact absurd ha hact
      | i + 1 => simpa using hw
  termination_by ws => ws.length

theorem activeCount_le_length (ws : List Wave) : activeCount ws ≤ ws.length :=
  List.countP_le_length _

theorem waveAdvance_active_of {dt : ℚ} {w : Wave}
    (h : (waveAdvance dt w).active = true) : w.active = true := by
  by_cases hw : w.active = true
  · exact hw
  · unfold waveAdvance at h
    rw [if_neg hw] at h
    exact h

/-! ## Claim C5 -/

/-- Claim C5: under the pool representation invariant (`waveCount` counts
the active slots of the 10-slot pool), a spawn preserves the invariant and
never pushes the active count above `MAX_WAVES`; when the pool is full the
spawn is a perfect no-op returning the state unchanged (so no slot of any
existing wave is modified); and the advance loop never increases the number
of active waves. -/
theorem wave_capacity_C5 (s : ControlState)
    (hlen : s.waves.length = MAX_WAVES)
    (hinv : s.waveCount = (activeCount s.waves : ℤ)) :
    ((spawnWave s).waveCount = (activeCount (spawnWave s).waves : ℤ) ∧
     (spawnWave s).waveCount ≤ (MAX_WAVES : ℤ)) ∧
    ((MAX_WAVES : ℤ) ≤ s.waveCount → spawnWave s = s) ∧
    (∀ dt : ℚ, activeCount (s.waves.map (waveAdvance dt)) ≤ activeCount s.waves) := by
  have hcle : activeCount s.waves ≤ s.waves.length := activeCount_le_length s.waves
  refine ⟨?_, ?_, ?_⟩
  · by_cases hfull : (MAX_WAVES : ℤ) ≤ s.waveCount
    · unfold spawnWave
      rw [if_pos hfull]
      refine ⟨hinv, ?_⟩
      rw [hinv]
      exact_mod_cast hlen ▸ hcle
    · have hlt : activeCount s.waves < MAX_WAVES := by
        rw [hinv] at hfull
        exact_mod_cast not_le.mp hfull
      have hlt' : activeCount s.waves < s.waves.length := hlen ▸ hlt
      have hsome : ∃ ws', spawnIntoSlots (spawnSpeed s.targetControlValue)
          s.targetControlValue s.waves = some ws' := by
        rcases heq : spawnIntoSlots (spawnSpeed s.targetControlValue)
            s.targetControlValue s.waves with _ | ws'
        · exact absurd (spawnIntoSlots_eq_none heq) (Nat.ne_of_lt hlt')
        · exact ⟨ws', rfl⟩
      obtain ⟨ws', hws'⟩ := hsome
      unfold spawnWave
      rw [if_neg hfull, hws']
      have hac := spawnIntoSlots_activeCount hws'
      have hll := spawnIntoSlots_length hws'
      constructor
      · simp only [hac, hinv]
        push_cast
        ring
      · simp only [hinv]
        have : activeCount ws' ≤ MAX_WAVES := by
          calc activeCount ws' ≤ ws'.length := activeCount_le_length ws'
            _ = s.waves.length := hll
            _ = MAX_WAVES := hlen
        have h1 : activeCount s.waves + 1 ≤ MAX_WAVES := by omega
        exact_mod_cast h1
  · intro h
    unfold spawnWave
    rw [if_pos h]
  · intro dt
    unfold activeCount
    rw [List.countP_map]
    exact List.countP_mono_left (fun w _ h => waveAdvance_active_of h)

/-- Concrete full pool for the C5 witness: ten active waves. -/
def waveC5 : Wave := { phase := 1, speed := 1, nValue := 50, active := true }

def stateC5 : ControlState :=
  { targetControlValue := 50, currentControlValue := 50, transitionStartTime := 0,
    transitionStartValue := 50, isTransitioning := false,
    waves := List.replicate 10 waveC5, waveCount := 10, lastWaveSpawnTime := 0,
    isPaused := false, lastUpdateTime := 0, eventIntensity := 0, eventPhase := 0,
    lastEventTime := 0, globalTime := 0 }

theorem wave_capacity_C5_witness :
    stateC5.waves.length = MAX_WAVES ∧
    stateC5.waveCount = (activeCount stateC5.waves : ℤ) ∧
    ((MAX_WAVES : ℤ) ≤ stateC5.waveCount → spawnWave stateC5 = stateC5) ∧
    (spawnWave stateC5).waveCount ≤ (MAX_WAVES : ℤ) :=
  ⟨by simp [stateC5, MAX_WAVES],
   by simp [stateC5, activeCount, waveC5, List.countP_replicate],
   (wave_capacity_C5 stateC5 (by simp [stateC5, MAX_WAVES])
     (by simp [stateC5, activeCount, waveC5, List.countP_replicate])).2.1,
   (wave_capacity_C5 stateC5 (by simp [stateC5, MAX_WAVES])
     (by simp [stateC5, activeCount, waveC5, List.countP_replicate])).1.2⟩

/-! ## Claim C1 -/

/-- A spawn never touches a slot holding an active wave. -/
theorem spawnWave_get_active (s : ControlState) (i : ℕ) (w : Wave)
    (hw : s.waves[i]? = some w) (ha : w.active = true) :
    (spawnWave s).waves[i]? = some w := by
  unfold spawnWave
  split_ifs with h
  · exact hw
  · rcases heq : spawnIntoSlots (spawnSpeed s.targetControlValue)
        s.targetControlValue s.waves with _ | ws'
    · simp only [heq]
      exact hw
    · simp only [heq]
      exact spawnIntoSlots_get_active heq hw ha

theorem advanceWaves_waves (σ : ControlState) (dt : ℚ) :
    (advanceWaves σ dt).waves = σ.waves.map (waveAdvance dt) := rfl

theorem waveAdvance_of_active {dt : ℚ} {w : Wave} (ha : w.active = true) :
    waveAdvance dt w =
      (if PHASE_PERIOD ≤ w.phase + w.speed * dt then
        { phase := w.phase + w.speed * dt, speed := w.speed, nValue := w.nValue,
          active := false }
      else
        { phase := w.phase + w.speed * dt, speed := w.speed, nValue := w.nValue,
          active := true }) := by
  unfold waveAdvance
  rw [if_pos ha]
  dsimp only
  split_ifs with h
  · rfl
  · rw [ha]

/-- On a non-paused tick, the slot of an active wave holds exactly its
advanced version afterwards. -/
theorem updateVirtualPosition_waves_get (s : ControlState) (now : ℚ)
    (hp : s.isPaused = false) (i : ℕ) (w : Wave)
    (hw : s.waves[i]? = some w) (ha : w.active = true) :
    (updateVirtualPosition s now).waves[i]? =
      some (waveAdvance (dtOf s.lastUpdateTime now) w) := by
  have hbody : (updateVirtualPositionActive s now).waves[i]? =
      some (waveAdvance (dtOf s.lastUpdateTime now) w) := by
    simp only [updateVirtualPositionActive]
    by_cases hc : waveIntervalOf s.targetControlValue ≤
        s.globalTime + dtOf s.lastUpdateTime now - s.lastWaveSpawnTime
    · rw [if_pos hc, advanceWaves_waves, List.getElem?_map]
      exact (congrArg (Option.map (waveAdvance (dtOf s.lastUpdateTime now)))
        (spawnWave_get_active
          { s with lastUpdateTime := now,
                   globalTime := s.globalTime + dtOf s.lastUpdateTime now }
          i w hw ha)).trans rfl
    · rw [if_neg hc, advanceWaves_waves, List.getElem?_map]
      exact (congrArg (Option.map (waveAdvance (dtOf s.lastUpdateTime now))) hw).trans rfl
  rw [updateVirtualPosition, if_neg (by rw [hp]; exact Bool.false_ne_true)]
  exact hbody

/-- Claim C1: on a non-paused tick, a wave that was active keeps its frozen
`speed` and `nValue` unchanged — only its `phase` moves, by exactly its own
speed times the tick's delta — and the dark-wave computation reads only each
wave's frozen `nValue`: its result is independent of the live control value
passed in. -/
theorem wave_params_frozen_C1 (s : ControlState) (now : ℚ) (i : ℕ) (w w' : Wave)
    (hp : s.isPaused = false)
    (hw : s.waves[i]? = some w) (ha : w.active = true)
    (hw' : (updateVirtualPosition s now).waves[i]? = some w') :
    (w'.speed = w.speed ∧ w'.nValue = w.nValue ∧
     w'.phase = w.phase + w.speed * dtOf s.lastUpdateTime now) ∧
    (∀ (pos : ℚ) (ws : List Wave) (n1 n2 : ℚ),
        calculateMainDarkWave pos ws n1 = calculateMainDarkWave pos ws n2) := by
  refine ⟨?_, fun _ _ _ _ => rfl⟩
  rw [updateVirtualPosition_waves_get s now hp i w hw ha] at hw'
  simp only [Option.some.injEq] at hw'
  rw [← hw', waveAdvance_of_active ha]
  split_ifs with h1 <;> exact ⟨rfl, rfl, rfl⟩

/-- Concrete non-paused one-wave state for the C1 witness. -/
def stateC1 : ControlState :=
  { targetControlValue := 50, currentControlValue := 50, transitionStartTime := 0,
    transitionStartValue := 50, isTransitioning := false,
    waves := [{ phase := 1, speed := 1/2, nValue := 30, active := true }],
    waveCount := 1, lastWaveSpawnTime := 0, isPaused := false, lastUpdateTime := 0,
    eventIntensity := 0, eventPhase := 0, lastEventTime := 0, globalTime := 0 }

def waveC1 : Wave := { phase := 1, speed := 1/2, nValue := 30, active := true }

def waveC1tick : Wave := { phase := 21/20, speed := 1/2, nValue := 30, active := true }

theorem wave_params_frozen_C1_witness :
    stateC1.isPaused = false ∧
    stateC1.waves[0]? = some waveC1 ∧ waveC1.active = true ∧
    (updateVirtualPosition stateC1 100).waves[0]? = some waveC1tick ∧
    (waveC1tick.speed = waveC1.speed ∧ waveC1tick.nValue = waveC1.nValue ∧
     waveC1tick.phase = waveC1.phase + waveC1.speed * dtOf stateC1.lastUpdateTime 100) := by
  have hw' : (updateVirtualPosition stateC1 100).waves[0]? = some waveC1tick := by
    rw [updateVirtualPosition_waves_get stateC1 100 rfl 0 waveC1 rfl rfl]
    norm_num [waveAdvance, dtOf, stateC1, waveC1, waveC1tick, PHASE_PERIOD]
  exact ⟨rfl, rfl, rfl, hw',
    (wave_params_frozen_C1 stateC1 100 0 waveC1 waveC1tick rfl rfl rfl hw').1⟩

/-! ## Claim C9 -/

theorem updateBrightnessTransition_wave_fields (s : ControlState) (now : ℚ) :
    (updateBrightnessTransition s now).waves = s.waves ∧
    (updateBrightnessTransition s now).globalTime = s.globalTime ∧
    (updateBrightnessTransition s now).waveCount = s.waveCount ∧
    (updateBrightnessTransition s now).isPaused = s.isPaused := by
  simp only [updateBrightnessTransition]
  split_ifs <;> exact ⟨rfl, rfl, rfl, rfl⟩

theorem updateVirtualPosition_paused (s : ControlState) (now : ℚ)
    (hp : s.isPaused = true) : updateVirtualPosition s now = s := by
  unfold updateVirtualPosition
  rw [if_pos hp]

theorem updateParticles_globalTime (st : TidalStripState) (totalLEDs dt : ℚ) :
    (updateParticles st totalLEDs dt).globalTime = st.globalTime := by
  unfold updateParticles
  split_ifs <;> rfl

theorem spawnParticle_globalTime (st : TidalStripState) (rE rH : ℚ)
    (powQ : ℚ → ℚ → ℚ) : (spawnParticle st rE rH powQ).globalTime = st.globalTime := by
  simp only [spawnParticle]
  split_ifs <;> rfl

theorem updateFlashEffect_globalTime (st : TidalStripState) (dt rand : ℚ)
    (expQ : ℚ → ℚ) : (updateFlashEffect st dt rand expQ).globalTime = st.globalTime := by
  simp only [updateFlashEffect]
  split_ifs <;> rfl

theorem dtOf_pos {last now : ℚ} (h : last < now) : 0 < dtOf last now := by
  simp only [dtOf]
  split_ifs with h1
  · norm_num
  · exact div_pos (by linarith) (by norm_num)

/-- The tidal tick advances the strip's clock by the clamped delta. -/
theorem tidalTick_globalTime (st : TidalStripState)
    (now totalLEDs rE rH rF : ℚ) (powQ : ℚ → ℚ → ℚ) (expQ : ℚ → ℚ)
    (h1 : st.lastUpdateTime ≠ 0) :
    (tidalTick st now totalLEDs rE rH rF powQ expQ).globalTime =
      st.globalTime + dtOf st.lastUpdateTime now := by
  simp only [tidalTick, if_neg h1]
  rw [updateFlashEffect_globalTime, spawnParticle_globalTime, updateParticles_globalTime]

/-- Claim C9: while paused, a loop tick leaves the wave subsystem's state
(waves, hence every wave's phase, the wave count and the group `globalTime`)
unchanged — no wave spawns or retires — while both tidal-bridge strips still
run their particle/flash update on the very same tick, and a strip with a
live time base strictly advances its clock; pausing never halts the
particle/flash subsystems. -/
theorem pause_asymmetry_C9 (sys : SystemState) (now : ℚ) (doTransition : Bool)
    (randEvent rE1 rH1 rF1 rE2 rH2 rF2 : ℚ) (powQ : ℚ → ℚ → ℚ) (expQ : ℚ → ℚ)
    (hp : sys.control.isPaused = true)
    (h1 : sys.tidal1.lastUpdateTime ≠ 0) (h2 : sys.tidal1.lastUpdateTime < now) :
    ((loopTick sys now doTransition randEvent rE1 rH1 rF1 rE2 rH2 rF2 powQ expQ).control.waves
        = sys.control.waves ∧
     (loopTick sys now doTransition randEvent rE1 rH1 rF1 rE2 rH2 rF2 powQ expQ).control.globalTime
        = sys.control.globalTime ∧
     (loopTick sys now doTransition randEvent rE1 rH1 rF1 rE2 rH2 rF2 powQ expQ).control.waveCount
        = sys.control.waveCount) ∧
    ((loopTick sys now doTransition randEvent rE1 rH1 rF1 rE2 rH2 rF2 powQ expQ).tidal1
        = tidalTick sys.tidal1 now TIDAL_STRIP_1_LEDS rE1 rH1 rF1 powQ expQ ∧
     (loopTick sys now doTransition randEvent rE1 rH1 rF1 rE2 rH2 rF2 powQ expQ).tidal2
        = tidalTick sys.tidal2 now TIDAL_STRIP_2_LEDS rE2 rH2 rF2 powQ expQ) ∧
    sys.tidal1.globalTime <
      (loopTick sys now doTransition randEvent rE1 rH1 rF1 rE2 rH2 rF2 powQ expQ).tidal1.globalTime := by
  obtain ⟨hbw, hbg, hbc, hbp⟩ := updateBrightnessTransition_wave_fields sys.control now
  have hc0 : ∀ c0 : ControlState, c0.isPaused = true →
      (updateVirtualPosition c0 now).isPaused = true := by
    intro c0 h
    rw [updateVirtualPosition_paused c0 now h]
    exact h
  constructor
  · simp only [loopTick]
    by_cases hd : doTransition = true
    · rw [if_pos hd]
      rw [updateVirtualPosition_paused _ now (hbp.trans hp)]
      rw [if_pos (hbp.trans hp)]
      exact ⟨hbw, hbg, hbc⟩
    · rw [if_neg hd]
      rw [updateVirtualPosition_paused _ now hp]
      rw [if_pos hp]
      exact ⟨rfl, rfl, rfl⟩
  refine ⟨⟨rfl, rfl⟩, ?_⟩
  show sys.tidal1.globalTime <
    (tidalTick sys.tidal1 now TIDAL_STRIP_1_LEDS rE1 rH1 rF1 powQ expQ).globalTime
  rw [tidalTick_globalTime sys.tidal1 now TIDAL_STRIP_1_LEDS rE1 rH1 rF1 powQ expQ h1]
  have := dtOf_pos h2
  linarith

/-- Concrete paused system for the C9 witness. -/
def systemC9 : SystemState :=
  { control :=
      { targetControlValue := 50, currentControlValue := 50, transitionStartTime := 0,
        transitionStartValue := 50, isTransitioning := false,
        waves := [{ phase := 2, speed := 1/2, nValue := 50, active := true }],
        waveCount := 1, lastWaveSpawnTime := 0, isPaused := true, lastUpdateTime := 0,
        eventIntensity := 0, eventPhase := 0, lastEventTime := 0, globalTime := 7 },
    tidal1 :=
      { controlValue := 50, lastUpdateTime := 100, globalTime := 3, particles := [],
        lastParticleSpawnTime := 0, flashIntensity := 0, flashStartTime := 0,
        lastFlashCheckTime := 0 },
    tidal2 :=
      { controlValue := 50, lastUpdateTime := 100, globalTime := 3, particles := [],
        lastParticleSpawnTime := 0, flashIntensity := 0, flashStartTime := 0,
        lastFlashCheckTime := 0 } }

theorem pause_asymmetry_C9_witness :
    systemC9.control.isPaused = true ∧
    systemC9.tidal1.lastUpdateTime ≠ 0 ∧ systemC9.tidal1.lastUpdateTime < 200 ∧
    ((loopTick systemC9 200 false 0 0 0 0 0 0 0 (fun x _ => x) (fun x => x)).control.waves
        = systemC9.control.waves ∧
     systemC9.tidal1.globalTime <
       (loopTick systemC9 200 false 0 0 0 0 0 0 0 (fun x _ => x) (fun x => x)).tidal1.globalTime) :=
  ⟨rfl, by norm_num [systemC9], by norm_num [systemC9],
   (pause_asymmetry_C9 systemC9 200 false 0 0 0 0 0 0 0 (fun x _ => x) (fun x => x)
      rfl (by norm_num [systemC9]) (by norm_num [systemC9])).1.1,
   (pause_asymmetry_C9 systemC9 200 false 0 0 0 0 0 0 0 (fun x _ => x) (fun x => x)
      rfl (by norm_num [systemC9]) (by norm_num [systemC9])).2.2⟩

/-! ## Claim C6 -/

/-- A realistic pre-`q` running state: transition in progress, empty
ten-slot wave pool, clock at 100 s with the last wave spawned at 90 s. -/
def inactiveWaveC6 : Wave := { phase := 0, speed := 0, nValue := 0, active := false }

def stateC6 : ControlState :=
  { targetControlValue := 80, currentControlValue := 40, transitionStartTime := 0,
    transitionStartValue := 20, isTransitioning := true,
    waves := [inactiveWaveC6, inactiveWaveC6, inactiveWaveC6, inactiveWaveC6,
              inactiveWaveC6, inactiveWaveC6, inactiveWaveC6, inactiveWaveC6,
              inactiveWaveC6, inactiveWaveC6],
    waveCount := 0, lastWaveSpawnTime := 90, isPaused := false, lastUpdateTime := 0,
    eventIntensity := 0, eventPhase := 0, lastEventTime := 0, globalTime := 100 }

/-- Claim C6, evaluated on the code: processing `q` does zero both the
target and the current control value and clears the transition flag, but it
leaves the wave queue, the pause flag, `globalTime` and `lastWaveSpawnTime`
untouched — so on the very next tick whose advanced clock satisfies
`globalTime - lastWaveSpawnTime ≥ waveInterval(0) = 10 s`, `spawnWave` runs
and a new wave appears (`waveCount` becomes 1) with no intervening `f,<n>`
command, contradicting the claim that no further waves spawn after `q`. -/
theorem quit_keeps_spawning_C6 :
    (parseCommandQ stateC6).targetControlValue = 0 ∧
    (parseCommandQ stateC6).currentControlValue = 0 ∧
    (parseCommandQ stateC6).isTransitioning = false ∧
    (parseCommandQ stateC6).waves = stateC6.waves ∧
    (parseCommandQ stateC6).lastWaveSpawnTime = stateC6.lastWaveSpawnTime ∧
    (parseCommandQ stateC6).globalTime = stateC6.globalTime ∧
    (parseCommandQ stateC6).isPaused = false ∧
    (updateVirtualPosition (parseCommandQ stateC6) 500).waveCount = 1 ∧
    activeCount (updateVirtualPosition (parseCommandQ stateC6) 500).waves = 1 := by
  refine ⟨rfl, rfl, rfl, rfl, rfl, rfl, rfl, ?_, ?_⟩ <;>
    norm_num [updateVirtualPosition, updateVirtualPositionActive, parseCommandQ,
      stateC6, inactiveWaveC6, dtOf, waveIntervalOf, lerpFloat, constrain, smoothstep,
      spawnWave, spawnSpeed, spawnIntoSlots, mkWave, advanceWaves, waveAdvance,
      retireCount, activeCount, List.countP_cons, List.countP_nil,
      WAVE_INTERVAL_SLOW, WAVE_INTERVAL_FAST, PHASE_SPEED_SLOW, PHASE_SPEED_FAST,
      PHASE_PERIOD, MAX_WAVES]

end Studio3
